import Mathlib

/-
Verification of the safe_angles library (src/safe_angles.hpp).

The library wraps a floating-point payload in a phantom-tagged type
(degrees or radians), provides same-unit arithmetic, a peer-to-peer
conversion dispatch (angle_cast), trigonometric wrappers, and textual
formatting.

Modelling choices:
- The payload type is kept generic (an arbitrary Lean type with the
  needed arithmetic instances) for the structural claims, so that the
  theorems hold for any scalar semantics, floating point included.
- For claims about the actual numeric behaviour (conversion factors,
  trigonometry) the payload is instantiated at the real numbers and the
  per-precision compile-time constant pi_v<T> is an explicit parameter,
  mirroring degrees_to_radians_factor<T>() = pi_v<T> / T(180).
- The standard transcendental functions (std::sin and friends) are
  passed as function parameters where the code merely delegates, and
  instantiated with the Mathlib real functions for the concrete facts.
- The compile-time resolution of the explicit-destination call
  angle_cast<dst>(src value) is modelled over the closed set of tagged
  types (two tags, two precisions). The authored conversion overloads
  take the scalar as their template parameter, so an explicit destination
  argument binds to that parameter and removes them by substitution
  failure: only the identity overload (dst = src) is viable; a distinct
  destination of equal precision selects the primary template, whose body
  is static_assert(always_false_v<T>, "implement conversion from U to T"),
  a compile-time error; a mismatched precision satisfies no overload at
  all (the primary's requires clause demands equal underlying types), a
  no-matching-overload compile-time error.
-/

namespace mkp

namespace trigo

/-- The phantom unit tags of the library: degrees_tag and radians_tag. -/
inductive UnitTag where
  | deg
  | rad
deriving DecidableEq

/-- angle_unit<T, Tag>: a tagged scalar wrapper holding one payload val_. -/
structure angle_unit (T : Type) (tag : UnitTag) where
  val_ : T

/-- degrees<T> = angle_unit<T, degrees_tag>. -/
abbrev degrees (T : Type) : Type := angle_unit T UnitTag.deg

/-- radians<T> = angle_unit<T, radians_tag>. -/
abbrev radians (T : Type) : Type := angle_unit T UnitTag.rad

/-- value(): returns the raw payload. -/
def angle_unit.value {T : Type} {tag : UnitTag} (a : angle_unit T tag) : T :=
  a.val_

/-- Unary operator-: negates the payload. -/
instance {T : Type} {tag : UnitTag} [Neg T] : Neg (angle_unit T tag) where
  neg a := ⟨-a.val_⟩

/-- Binary operator+: same tagged type, payloads added. -/
instance {T : Type} {tag : UnitTag} [Add T] : Add (angle_unit T tag) where
  add a b := ⟨a.val_ + b.val_⟩

/-- Binary operator-: same tagged type, payloads subtracted. -/
instance {T : Type} {tag : UnitTag} [Sub T] : Sub (angle_unit T tag) where
  sub a b := ⟨a.val_ - b.val_⟩

/-- operator*(value_type a, T t): payload scaled on the right. -/
instance {T : Type} {tag : UnitTag} [Mul T] :
    HMul (angle_unit T tag) T (angle_unit T tag) where
  hMul a t := ⟨a.val_ * t⟩

/-- operator*(T t, value_type a): payload scaled on the left. -/
instance {T : Type} {tag : UnitTag} [Mul T] :
    HMul T (angle_unit T tag) (angle_unit T tag) where
  hMul t a := ⟨t * a.val_⟩

/-- operator/(value_type a, T t): payload divided by the scalar. -/
instance {T : Type} {tag : UnitTag} [Div T] :
    HDiv (angle_unit T tag) T (angle_unit T tag) where
  hDiv a t := ⟨a.val_ / t⟩

/-- operator+=: the receiver after the compound assignment. -/
def angle_unit.add_assign {T : Type} {tag : UnitTag} [Add T]
    (receiver a : angle_unit T tag) : angle_unit T tag :=
  ⟨receiver.val_ + a.val_⟩

/-- operator-=: the receiver after the compound assignment. -/
def angle_unit.sub_assign {T : Type} {tag : UnitTag} [Sub T]
    (receiver a : angle_unit T tag) : angle_unit T tag :=
  ⟨receiver.val_ - a.val_⟩

/-- operator*=: the receiver after the compound assignment. -/
def angle_unit.mul_assign {T : Type} {tag : UnitTag} [Mul T]
    (receiver : angle_unit T tag) (t : T) : angle_unit T tag :=
  ⟨receiver.val_ * t⟩

/-- operator/=: the receiver after the compound assignment. -/
def angle_unit.div_assign {T : Type} {tag : UnitTag} [Div T]
    (receiver : angle_unit T tag) (t : T) : angle_unit T tag :=
  ⟨receiver.val_ / t⟩

/-- operator< derived from operator<=>, which compares a.val_ with b.val_. -/
instance {T : Type} {tag : UnitTag} [LT T] : LT (angle_unit T tag) where
  lt a b := a.val_ < b.val_

/-- operator<=>(value_type a, value_type b) = a.val_ <=> b.val_: the
three-way comparison applied to tagged values is the payload comparison,
for any comparison function cmp on the payload type (this covers the
floating-point comparison with its NaN behaviour, whatever it is). -/
def angle_unit.threeway {T γ : Type} {tag : UnitTag}
    (cmp : T → T → γ) (a b : angle_unit T tag) : γ :=
  cmp a.val_ b.val_

/-- degrees_to_radians_factor<T>() = pi_v<T> / T(180), with the
per-precision constant pi_v<T> an explicit parameter. -/
def degrees_to_radians_factor {R : Type} [Div R] [OfNat R 180]
    (pi : R) : R :=
  pi / 180

/-- radians_to_degrees_factor<T>() = T(180) / pi_v<T>. -/
def radians_to_degrees_factor {R : Type} [Div R] [OfNat R 180]
    (pi : R) : R :=
  180 / pi

/-- The value-level behaviour of the angle_cast overloads for one
precision: the identity overload returns its argument unchanged, the
degrees overload multiplies by degrees_to_radians_factor, the radians
overload multiplies by radians_to_degrees_factor. -/
def angle_cast {R : Type} [Mul R] [Div R] [OfNat R 180] (pi : R)
    {src : UnitTag} (dst : UnitTag) (u : angle_unit R src) :
    angle_unit R dst :=
  match src, dst, u with
  | .deg, .deg, u => u
  | .rad, .rad, u => u
  | .deg, .rad, u => ⟨u.val_ * degrees_to_radians_factor pi⟩
  | .rad, .deg, u => ⟨u.val_ * radians_to_degrees_factor pi⟩

/-- The payload-polymorphic identity overload of angle_cast
(template<AngleUnit T> T angle_cast(T t) { return t; }): it returns the
argument itself, for any payload type, so the payload is unchanged
bit-for-bit (NaN and infinity payloads included). -/
def angle_cast_id {T : Type} {tag : UnitTag}
    (t : angle_unit T tag) : angle_unit T tag :=
  t

/-- The underlying precisions the library supports. -/
inductive Prec where
  | f32
  | f64
deriving DecidableEq

/-- A concrete tagged type: a unit tag together with a precision. -/
structure UnitTy where
  tag : UnitTag
  prec : Prec
deriving DecidableEq

/-- The outcome of overload resolution for the explicit-destination call
angle_cast<dst>(value of type src): the identity overload, or one of the
two compile-time failures. -/
inductive CastResolution where
  | identity
  | static_assert_error (msg : String)
  | no_matching_overload
deriving DecidableEq

/-- Overload resolution of angle_cast<dst>(value of type src), the form
the library itself uses. The explicit destination binds each candidate's
first template parameter, so the authored conversion overloads (whose
first parameter is the scalar T) become ill-formed and drop out by
substitution failure for every dst. What remains: the identity overload,
an exact match when dst = src; otherwise the primary template when the
precisions match (its requires clause holds), whose instantiated body
fires static_assert(always_false_v<T>, "implement conversion from U to
T"); otherwise no candidate at all, since the requires clause demands
equal underlying types. -/
def angle_cast_explicit_resolve (dst src : UnitTy) : CastResolution :=
  if dst = src then .identity
  else if dst.prec = src.prec then
    .static_assert_error "implement conversion from U to T"
  else .no_matching_overload

/-- sin: written as angle_cast<radians<T>>(angle) followed by the
standard transcendental function of the precision (parameter sinR) on
the payload. Only the radians instantiation compiles: there the cast
resolves to the identity overload; for a degrees argument the cast
selects the static_assert primary and the program is ill-formed (see
angle_cast_explicit_resolve). -/
def sin {R : Type} (sinR : R → R) (angle : radians R) : R :=
  sinR (angle_cast_id angle).value

/-- cos: same shape as sin with the standard cosine; only the radians
instantiation compiles. -/
def cos {R : Type} (cosR : R → R) (angle : radians R) : R :=
  cosR (angle_cast_id angle).value

/-- tan: same shape as sin with the standard tangent; only the radians
instantiation compiles. -/
def tan {R : Type} (tanR : R → R) (angle : radians R) : R :=
  tanR (angle_cast_id angle).value

/-- asin: wraps the standard inverse sine result in radians<T>. -/
def asin {R : Type} (asinR : R → R) (x : R) : radians R :=
  ⟨asinR x⟩

/-- acos: wraps the standard inverse cosine result in radians<T>. -/
def acos {R : Type} (acosR : R → R) (x : R) : radians R :=
  ⟨acosR x⟩

/-- atan: wraps the standard inverse tangent result in radians<T>. -/
def atan {R : Type} (atanR : R → R) (x : R) : radians R :=
  ⟨atanR x⟩

/-- atan2: wraps the standard two-argument arctangent result in
radians<T>. -/
def atan2 {R : Type} (atan2R : R → R → R) (y x : R) : radians R :=
  ⟨atan2R y x⟩

/-- The standard two-argument arctangent over the reals, following the
quadrant and sign conventions of the C standard std::atan2 (one real
zero stands for +0; infinite arguments have no real counterpart). -/
noncomputable def std_atan2 (y x : ℝ) : ℝ :=
  if 0 < x then Real.arctan (y / x)
  else if x < 0 then
    if 0 ≤ y then Real.arctan (y / x) + Real.pi
    else Real.arctan (y / x) - Real.pi
  else
    if 0 < y then Real.pi / 2
    else if y < 0 then -(Real.pi / 2)
    else 0

/-- The radians suffix of the std::formatter specialisation: "rd". -/
def radians_suffix : String := "rd"

/-- The degrees suffix of the std::formatter specialisation, exactly the
characters present in the source format string (bytes C3 82 C2 B0, the
two characters U+00C2 U+00B0). -/
def degrees_suffix : String := "Â°"

/-- std::formatter<radians<T>>: the scalar rendering of the payload
followed by the radians suffix. -/
def format_radians {T : Type} (fmt : T → String) (angle : radians T) :
    String :=
  fmt angle.value ++ radians_suffix

/-- std::formatter<degrees<T>>: the scalar rendering of the payload
followed by the degrees suffix. -/
def format_degrees {T : Type} (fmt : T → String) (angle : degrees T) :
    String :=
  fmt angle.value ++ degrees_suffix

end trigo

end mkp

namespace mkp

namespace trigo

/-- C1: converting degrees<T>(x) to radians<T> returns a radians value
whose payload is x times the compile-time constant pi/180 of the
precision, and converting radians<T>(x) to degrees<T> returns a degrees
value whose payload is x times the compile-time constant 180/pi, for any
payload x and any per-precision value of the constant pi. -/
theorem c1_conversion_factors :
    ∀ (R : Type) [Mul R] [Div R] [OfNat R 180] (pi x : R),
      (angle_cast pi UnitTag.rad (⟨x⟩ : degrees R)).value
          = x * degrees_to_radians_factor pi
        ∧ (angle_cast pi UnitTag.deg (⟨x⟩ : radians R)).value
          = x * radians_to_degrees_factor pi := by
  intro R _ _ _ pi x
  exact ⟨rfl, rfl⟩

/-- C4: converting a tagged value to its own type via angle_cast returns
the input itself, for every payload type (hence bit-for-bit identical
payloads, NaN and infinities included), for every tag; overload
resolution selects the identity overload for every self-cast, so the
identity takes priority over any conversion formula. -/
theorem c4_identity_cast :
    (∀ (T : Type) (tag : UnitTag) (t : angle_unit T tag),
        angle_cast_id t = t)
      ∧ (∀ (R : Type) [Mul R] [Div R] [OfNat R 180]
          (pi : R) (tag : UnitTag) (u : angle_unit R tag),
          angle_cast pi tag u = u)
      ∧ (∀ t : UnitTy,
          angle_cast_explicit_resolve t t = CastResolution.identity) := by
  refine ⟨fun T tag t => rfl, ?_, ?_⟩
  · intro R _ _ _ pi tag u
    cases tag <;> rfl
  · intro t
    simp [angle_cast_explicit_resolve]

/-- C2: the claim fails on the program. A sin, cos or tan call with a
degrees argument does not compile: the internal explicit-destination
cast angle_cast<radians<T>> resolves to the static_assert primary for a
degrees source of either precision, so the 90-degree scenario is a
compile-time error rather than a value. What the program does provide:
for radians arguments the cast resolves to the identity overload and the
functions return the bare standard-function result of the payload, and
sin of the pi/2-radians value is exactly 1. -/
theorem c2_trig_radians_only :
    (∀ (R : Type) (sinR cosR tanR : R → R) (a : radians R),
        sin sinR a = sinR a.value
          ∧ cos cosR a = cosR a.value
          ∧ tan tanR a = tanR a.value)
      ∧ (∀ p : Prec,
          angle_cast_explicit_resolve ⟨UnitTag.rad, p⟩ ⟨UnitTag.deg, p⟩
            = CastResolution.static_assert_error
                "implement conversion from U to T")
      ∧ (∀ p : Prec,
          angle_cast_explicit_resolve ⟨UnitTag.rad, p⟩ ⟨UnitTag.rad, p⟩
            = CastResolution.identity)
      ∧ sin Real.sin (⟨Real.pi / 2⟩ : radians ℝ) = 1 := by
  refine ⟨fun R sinR cosR tanR a => ⟨rfl, rfl, rfl⟩, ?_, ?_, ?_⟩
  · intro p
    cases p <;> rfl
  · intro p
    cases p <;> rfl
  · show Real.sin (Real.pi / 2) = 1
    exact Real.sin_pi_div_two

/-- C3: asin, acos and atan wrap the standard inverse function result in
a radians-tagged value whose payload is exactly that result, atan2 wraps
the standard two-argument arctangent of (y, x); instantiated at the
standard real atan2, atan2(1, 1) is pi/4 radians and atan2(0, -1) is pi
radians. -/
theorem c3_inverse_trig :
    (∀ (R : Type) (asinR acosR atanR : R → R) (x : R),
        (asin asinR x).value = asinR x
          ∧ (acos acosR x).value = acosR x
          ∧ (atan atanR x).value = atanR x)
      ∧ (∀ (R : Type) (atan2R : R → R → R) (y x : R),
          (atan2 atan2R y x).value = atan2R y x)
      ∧ (atan2 std_atan2 (1 : ℝ) 1).value = Real.pi / 4
      ∧ (atan2 std_atan2 (0 : ℝ) (-1)).value = Real.pi := by
  refine ⟨fun R asinR acosR atanR x => ⟨rfl, rfl, rfl⟩,
    fun R atan2R y x => rfl, ?_, ?_⟩
  · show std_atan2 1 1 = Real.pi / 4
    unfold std_atan2
    rw [if_pos one_pos]
    norm_num [Real.arctan_one]
  · show std_atan2 0 (-1) = Real.pi
    unfold std_atan2
    rw [if_neg (by norm_num), if_pos (by norm_num : (-1 : ℝ) < 0),
      if_pos (le_refl (0 : ℝ))]
    norm_num [Real.arctan_zero]

/-- C5: over the real-valued model of a precision (exact arithmetic, so
the result is exact rather than within rounding tolerance), converting
degrees to radians and back, or radians to degrees and back, returns
exactly the starting payload, for every payload x. -/
theorem c5_round_trip :
    ∀ x : ℝ,
      (angle_cast Real.pi UnitTag.deg
          (angle_cast Real.pi UnitTag.rad (⟨x⟩ : degrees ℝ))).value = x
        ∧ (angle_cast Real.pi UnitTag.rad
            (angle_cast Real.pi UnitTag.deg (⟨x⟩ : radians ℝ))).value = x := by
  intro x
  constructor
  · show x * degrees_to_radians_factor Real.pi
        * radians_to_degrees_factor Real.pi = x
    unfold degrees_to_radians_factor radians_to_degrees_factor
    field_simp
  · show x * radians_to_degrees_factor Real.pi
        * degrees_to_radians_factor Real.pi = x
    unfold degrees_to_radians_factor radians_to_degrees_factor
    field_simp

/-- C6: same-tag addition and subtraction act on the payloads, scaling
by a bare scalar on either side and division by a scalar act on the
payload, for every payload type with those operations and for each unit
tag; over the reals, scaling on the left also equals the payload times k
as the claim words it. -/
theorem c6_arithmetic :
    (∀ (R : Type) [Add R] [Sub R] [Mul R] [Div R]
        (tag : UnitTag) (a b : angle_unit R tag) (k : R),
        (a + b).value = a.value + b.value
          ∧ (a - b).value = a.value - b.value
          ∧ (a * k).value = a.value * k
          ∧ (k * a).value = k * a.value
          ∧ (a / k).value = a.value / k)
      ∧ (∀ (tag : UnitTag) (a : angle_unit ℝ tag) (k : ℝ),
          (k * a).value = a.value * k) := by
  refine ⟨fun R _ _ _ _ tag a b k => ⟨rfl, rfl, rfl, rfl, rfl⟩, ?_⟩
  intro tag a k
  show k * a.value = a.value * k
  exact mul_comm k a.value

/-- C7: for two values of the same tagged type, a < b holds exactly when
the payload of a is less than the payload of b, and the three-way
comparison of two tagged values is the payload comparison itself, for
any comparison function on the payload type (so NaN behaves exactly as
it does on the payloads). -/
theorem c7_ordering :
    (∀ (R : Type) [LT R] (tag : UnitTag) (a b : angle_unit R tag),
        a < b ↔ a.value < b.value)
      ∧ (∀ (R γ : Type) (cmp : R → R → γ) (tag : UnitTag)
          (a b : angle_unit R tag),
          angle_unit.threeway cmp a b = cmp a.value b.value) := by
  exact ⟨fun R _ tag a b => Iff.rfl, fun R γ cmp tag a b => rfl⟩

/-- C8: the claim fails on the program, whose diagnostics are inverted
relative to it. Under explicit-destination resolution the only accepted
cast is the identity (the authored formulas are removed by substitution
failure, contradicting the claim that they are accepted); the
single-precision-degrees to double-precision-radians pair is rejected at
compile time, but as a no-matching-overload error rather than with the
claimed implement-the-conversion diagnostic; that static_assert
diagnostic instead fires on the supported same-precision cross-tag
pairs. No resolution ever yields a fallback through another unit. -/
theorem c8_cast_resolution :
    (∀ dst src : UnitTy,
        angle_cast_explicit_resolve dst src = CastResolution.identity
          ↔ dst = src)
      ∧ angle_cast_explicit_resolve ⟨UnitTag.rad, Prec.f64⟩
            ⟨UnitTag.deg, Prec.f32⟩
          = CastResolution.no_matching_overload
      ∧ angle_cast_explicit_resolve ⟨UnitTag.rad, Prec.f32⟩
            ⟨UnitTag.deg, Prec.f32⟩
          = CastResolution.static_assert_error
              "implement conversion from U to T"
      ∧ angle_cast_explicit_resolve ⟨UnitTag.deg, Prec.f64⟩
            ⟨UnitTag.rad, Prec.f64⟩
          = CastResolution.static_assert_error
              "implement conversion from U to T" := by
  refine ⟨?_, rfl, rfl, rfl⟩
  intro dst src
  rcases dst with ⟨dt, dp⟩
  rcases src with ⟨st, sp⟩
  cases dt <;> cases dp <;> cases st <;> cases sp <;>
    simp [angle_cast_explicit_resolve]

/-- C9: with the scalar formatter rendering 1.5 as "1.5" and 90 as "90"
(as the standard formatting of those payloads does), formatting the
radians value 1.5 produces "1.5rd" as claimed, but formatting the
degrees value 90 produces the string "90" followed by the two characters
U+00C2 U+00B0 present in the source format string, which is not the
claimed "90" followed by the degree sign U+00B0. -/
theorem c9_formatting :
    ∀ fmtr fmtd : ℝ → String,
      fmtr 1.5 = "1.5" →
      fmtd 90 = "90" →
      format_radians fmtr (⟨1.5⟩ : radians ℝ) = "1.5rd"
        ∧ format_degrees fmtd (⟨90⟩ : degrees ℝ) = "90Â°"
        ∧ format_degrees fmtd (⟨90⟩ : degrees ℝ) ≠ "90°" := by
  intro fmtr fmtd hr hd
  refine ⟨?_, ?_, ?_⟩
  · show fmtr 1.5 ++ radians_suffix = "1.5rd"
    rw [hr]
    rfl
  · show fmtd 90 ++ degrees_suffix = "90Â°"
    rw [hd]
    rfl
  · show fmtd 90 ++ degrees_suffix ≠ "90°"
    rw [hd]
    decide

/-- C9 witness: the formatting theorem applied at scalar formatters that
render 1.5 as "1.5" and 90 as "90". -/
theorem c9_formatting_witness :
    format_radians (fun _ : ℝ => "1.5") (⟨1.5⟩ : radians ℝ) = "1.5rd"
      ∧ format_degrees (fun _ : ℝ => "90") (⟨90⟩ : degrees ℝ) = "90Â°"
      ∧ format_degrees (fun _ : ℝ => "90") (⟨90⟩ : degrees ℝ) ≠ "90°" :=
  c9_formatting (fun _ : ℝ => "1.5") (fun _ : ℝ => "90") rfl rfl

/-- C10: each compound assignment leaves the receiver holding exactly
the payload of the corresponding binary operator applied to the old
receiver and the argument, for every payload type with those operations
and for each unit tag. -/
theorem c10_compound_assign :
    ∀ (R : Type) [Add R] [Sub R] [Mul R] [Div R]
      (tag : UnitTag) (a b : angle_unit R tag) (k : R),
      a.add_assign b = a + b
        ∧ a.sub_assign b = a - b
        ∧ a.mul_assign k = a * k
        ∧ a.div_assign k = a / k := by
  intro R _ _ _ _ tag a b k
  exact ⟨rfl, rfl, rfl, rfl⟩

end trigo

end mkp
